import Mathlib

/-!
Shallow embedding of `openbb_terminal/portfolio/portfolio_optimization/optimizer_view.py`.

The Python module is a presentation layer: it translates option names through
fixed dictionaries, calls opaque optimizer collaborators, and prints tables and
performance lines.  We embed the module's own logic faithfully:

* Python dictionaries become association lists over `String`; a `d[k]` lookup
  becomes `dictGetE`, which fails with a `KeyError`-like value when the key is
  absent, exactly as in Python.
* Python floats are modelled as exact rationals `ℚ` wherever the code is closed
  under field operations; where a square root appears
  (`time_factor[freq] ** 0.5`, `returns.std()`) values are kept as exact
  symbolic expression trees (`PNum`) with rationals at the leaves.
* Failures (`KeyError`, `UnboundLocalError`, `IndexError`) are modelled with an
  `Except PyErr` monad; a Python function that can raise becomes a Lean function
  returning `Except PyErr _`.
* Console output is modelled as a trace of structured events; the opaque float
  renderer `str`/`format` is a parameter `pyStr : ℚ → String`, and the opaque
  external risk scorer `rp.Sharpe_Risk` is a parameter of function type.
* The opaque collaborators in `optimizer_model` are not reimplemented: each
  display function takes the collaborator's result as an explicit argument
  (`Option` weights together with the return table), mirroring the sentinel
  `weights is None` protocol.
-/

deriving instance DecidableEq for Except

namespace OptimizerView

/-- Python runtime errors that the module's own code can raise. -/
inductive PyErr where
  | keyError (table : String) (key : String)
  | unboundLocal (name : String)
  | indexError
  deriving DecidableEq, Repr

/-- Lookup in an association list (first matching key wins, as in a Python
dict literal without duplicate keys). -/
def dictGet {α : Type} (d : List (String × α)) (k : String) : Option α :=
  (d.find? (fun p => p.1 == k)).map Prod.snd

/-- Python `d[k]`: raises `KeyError` when the key is absent.  `tbl` names the
dictionary for the error value. -/
def dictGetE {α : Type} (tbl : String) (d : List (String × α)) (k : String) :
    Except PyErr α :=
  match dictGet d k with
  | some v => Except.ok v
  | none => Except.error (PyErr.keyError tbl k)

/-- The keys of an association list. -/
def dictKeys {α : Type} (d : List (String × α)) : List String :=
  d.map Prod.fst

/-- Dictionary `objectives_choices` (source lines 36–42). -/
def objectives_choices : List (String × String) :=
  [("minrisk", "MinRisk"),
   ("sharpe", "Sharpe"),
   ("utility", "Utility"),
   ("maxret", "MaxRet"),
   ("erc", "ERC")]

/-- Dictionary `risk_names` (source lines 44–71). -/
def risk_names : List (String × String) :=
  [("mv", "volatility"),
   ("mad", "mean absolute deviation"),
   ("gmd", "gini mean difference"),
   ("msv", "semi standard deviation"),
   ("var", "value at risk (VaR)"),
   ("cvar", "conditional value at risk (CVaR)"),
   ("tg", "tail gini"),
   ("evar", "entropic value at risk (EVaR)"),
   ("rg", "range"),
   ("cvrg", "CVaR range"),
   ("tgrg", "tail gini range"),
   ("wr", "worst realization"),
   ("flpm", "first lower partial moment"),
   ("slpm", "second lower partial moment"),
   ("mdd", "maximum drawdown uncompounded"),
   ("add", "average drawdown uncompounded"),
   ("dar", "drawdown at risk (DaR) uncompounded"),
   ("cdar", "conditional drawdown at risk (CDaR) uncompounded"),
   ("edar", "entropic drawdown at risk (EDaR) uncompounded"),
   ("uci", "ulcer index uncompounded"),
   ("mdd_rel", "maximum drawdown compounded"),
   ("add_rel", "average drawdown compounded"),
   ("dar_rel", "drawdown at risk (DaR) compounded"),
   ("cdar_rel", "conditional drawdown at risk (CDaR) compounded"),
   ("edar_rel", "entropic drawdown at risk (EDaR) compounded"),
   ("uci_rel", "ulcer index compounded")]

/-- Dictionary `risk_choices` (source lines 73–100). -/
def risk_choices : List (String × String) :=
  [("mv", "MV"),
   ("mad", "MAD"),
   ("gmd", "GMD"),
   ("msv", "MSV"),
   ("var", "VaR"),
   ("cvar", "CVaR"),
   ("tg", "TG"),
   ("evar", "EVaR"),
   ("rg", "RG"),
   ("cvrg", "CVRG"),
   ("tgrg", "TGRG"),
   ("wr", "WR"),
   ("flpm", "FLPM"),
   ("slpm", "SLPM"),
   ("mdd", "MDD"),
   ("add", "ADD"),
   ("dar", "DaR"),
   ("cdar", "CDaR"),
   ("edar", "EDaR"),
   ("uci", "UCI"),
   ("mdd_rel", "MDD_Rel"),
   ("add_rel", "ADD_Rel"),
   ("dar_rel", "DaR_Rel"),
   ("cdar_rel", "CDaR_Rel"),
   ("edar_rel", "EDaR_Rel"),
   ("uci_rel", "UCI_Rel")]

/-- Dictionary `time_factor` (source lines 102–106). -/
def time_factor : List (String × ℚ) :=
  [("D", 252), ("W", 52), ("M", 12)]

/-! ### Dates

Dates are modelled as proleptic-Gregorian ordinals, matching
`datetime.date.toordinal` (ordinal 1 is 0001-01-01, a Monday).  `date.today()`
is an input of the model (`today : ℤ`). -/

/-- Python `date.weekday()`: Monday is 0, Sunday is 6. -/
def pyWeekday (ord : ℤ) : ℤ := (ord - 1) % 7

/-- Zero-padded decimal rendering of a natural number, as in `strftime`. -/
def zeroPad (w : ℕ) (n : ℕ) : String :=
  let s := toString n
  String.mk (List.replicate (w - s.length) '0') ++ s

/-- Renders an ordinal date as `%Y-%m-%d` (`strftime`), via the standard
civil-from-days conversion. -/
def fmtDate (ord : ℤ) : String :=
  let z := ord + 305
  let era := Int.fdiv z 146097
  let doe := z - era * 146097
  let yoe := (doe - doe / 1460 + doe / 36524 - doe / 146096) / 365
  let y0 := yoe + era * 400
  let doy := doe - (365 * yoe + yoe / 4 - yoe / 100)
  let mp := (5 * doy + 2) / 153
  let d := doy - (153 * mp + 2) / 5 + 1
  let m := mp + (if mp < 10 then 3 else -9)
  let y := y0 + (if m ≤ 2 then 1 else 0)
  zeroPad 4 y.toNat ++ "-" ++ zeroPad 2 m.toNat ++ "-" ++ zeroPad 2 d.toNat

/-- Adjustment of `date.today()` in `d_period` (source lines 144–146): if
today falls on a weekend, step back to the most recent Friday
(`relativedelta(weekday=FR(-1))`). -/
def lastWeekdayOrd (today : ℤ) : ℤ :=
  if 5 ≤ pyWeekday today then today - (pyWeekday today - 4) else today

/-- Python `s.find(c)`: index of the first occurrence, `-1` when absent. -/
def pyFind (s : String) (c : Char) : ℤ :=
  match s.toList.findIdx? (fun x => x = c) with
  | some i => (i : ℤ)
  | none => -1

/-- Model of `d_period` (source lines 108–150).  `today` stands for
`date.today()`.  When `start` is empty and the period is not recognised, the
source leaves the local `p` unassigned and then reads it at line 140, raising
`UnboundLocalError`; an empty period raises `IndexError` at `period[-1]`
(line 132) before `p` is ever read. -/
def d_period (today : ℤ) (period start end_ : String) : Except PyErr String :=
  if start = "" then
    (match
      (if period = "ytd" then Except.ok "[Year-to-Date]"
       else if period = "max" then Except.ok "[All-time]"
       else
         match period.toList.getLast? with
         | none => Except.error PyErr.indexError
         | some c =>
           if c = 'd' then
             Except.ok ("[" ++ String.mk period.toList.dropLast ++ " Days]")
           else if c = 'w' then
             Except.ok ("[" ++ String.mk period.toList.dropLast ++ " Weeks]")
           else if c = 'o' then
             Except.ok ("[" ++ String.mk period.toList.dropLast.dropLast ++ " Months]")
           else if c = 'y' then
             Except.ok ("[" ++ String.mk period.toList.dropLast ++ " Years]")
           else Except.error (PyErr.unboundLocal "p") : Except PyErr String) with
     | Except.error e => Except.error e
     | Except.ok p =>
       Except.ok (if (p.drop 1).take 2 = "1 " then p.replace "s" "" else p))
  else
    let e := if end_ = "" then fmtDate (lastWeekdayOrd today) else end_
    Except.ok ("[From " ++ start ++ " to " ++ e ++ "]")

/-! ### Console output model -/

/-- Exact numeric expression: a rational literal, or an expression built from
square roots, products and quotients (the only operations the performance code
applies to irrational intermediate values).  `atom` stands for an opaque value
produced by the external scorer. -/
inductive PNum where
  | q (a : ℚ)
  | sqrt (a : PNum)
  | mul (a b : PNum)
  | div (a b : PNum)
  | atom (n : ℕ)
  deriving DecidableEq, Repr

/-- One unit of console output.  `consoleP` is a `console.print(*parts)` call
on plain strings; `pyPrint pre num post` is a `print` of a string that embeds
one formatted number; `table` is a `print_rich_table(rows, headers, title)`
call, rows being (index, cell) pairs. -/
inductive Event where
  | consoleP (parts : List String)
  | pyPrint (pre : String) (num : PNum) (post : String)
  | table (rows : List (String × String)) (headers : List String) (title : String)
  deriving DecidableEq, Repr

/-- The "no solution" notice, `console.print("\n", "There is no solution with
this parameters")`, as printed by every sentinel branch. -/
def noSolutionNotice : Event :=
  Event.consoleP ["\n", "There is no solution with this parameters"]

/-- Python `math.isclose(a, b, rel_tol=relTol)` (with the default
`abs_tol = 0`). -/
def math_isclose (a b relTol : ℚ) : Bool :=
  |a - b| ≤ relTol * max |a| |b|

/-- Portfolio weights: a Python dict, ticker to value. -/
def Weights := List (String × ℚ)

/-- Return table: one row per date, one column per asset, aligned with the
weights dict. -/
def Returns := List (List ℚ)

/-- Cell formatter of `display_weights` (source lines 306 and 312):
`lambda s: " " + s[:4] if s.find(".") == 1 else "" + s[:5]` applied to the
decimal rendering of the value. -/
def truncCell (s : String) : String :=
  if pyFind s '.' = 1 then " " ++ s.take 4 else s.take 5

/-- Model of `display_weights` (source lines 288–321).  `pyStr` is the opaque
Python float-to-decimal-string rendering (`.astype(str)`). -/
def display_weights (pyStr : ℚ → String) (weights : List (String × ℚ))
    (market_neutral : Bool) : List Event :=
  if weights = [] then []
  else
    let vals := weights.map Prod.snd
    if market_neutral = false then
      if math_isclose vals.sum 1 (1 / 10) then
        [Event.table (weights.map (fun p => (p.1, truncCell (pyStr (p.2 * 100)) ++ " %")))
          ["Value"] "Weights"]
      else
        [Event.table (weights.map (fun p => (p.1, truncCell (pyStr p.2) ++ " $")))
          ["Value"] "Weights"]
    else
      let tot := (vals.map (fun v => |v|)).sum / vals.length
      let header := if tot > 101 / 100 then "Value ($)" else "Value (%)"
      [Event.table (weights.map (fun p => (p.1, pyStr p.2))) [header] "Weights"]

/-! ### Performance report

Python float arithmetic is embedded exactly: expressions that stay inside
field operations on rationals are computed in `ℚ`; the square roots introduced
by `time_factor[freq] ** 0.5` and `.std()` make the remaining values
irrational, so they are kept as exact symbolic expression trees (`PNum`) with
rationals at the leaves.  The opaque external scorer's output is an arbitrary
such tree. -/

/-- Opaque external risk scorer `rp.Sharpe_Risk(weights, cov, returns, rm, rf,
alpha, a_sim, beta, b_sim)`: a collaborator of the riskfolio library, taken as
a parameter.  Arguments: weights, return table, risk measure, risk-free rate,
alpha, a_sim, beta, b_sim. -/
def SharpeRiskFn :=
  Weights → Returns → String → ℚ → ℚ → ℚ → Option ℚ → Option ℚ → PNum

/-- Row-by-row matrix product `stock_returns @ weights` (source line 226). -/
def portfolioReturns (weights : Weights) (stockReturns : Returns) : List ℚ :=
  stockReturns.map (fun row => (List.zipWith (fun r p => r * p.2) row weights).sum)

/-- Pandas `.mean()` of a series. -/
def listMean (xs : List ℚ) : ℚ := xs.sum / xs.length

/-- Pandas `.std()` squared: the sample variance with `ddof = 1`. -/
def sampleVar (xs : List ℚ) : ℚ :=
  ((xs.map (fun x => (x - listMean xs) ^ 2)).sum) / ((xs.length : ℚ) - 1)

/-- Pandas `.std()` of a series: square root of the sample variance. -/
def listStd (xs : List ℚ) : PNum := PNum.sqrt (PNum.q (sampleVar xs))

/-- Python `str.upper()` on the ASCII strings this module handles. -/
def pyUpper (s : String) : String := String.mk (s.toList.map Char.toUpper)

/-- Python `str.lower()` on the ASCII strings this module handles. -/
def pyLower (s : String) : String := String.mk (s.toList.map Char.toLower)

/-- Drawdown risk-measure codes (source lines 251–264). -/
def drawdowns : List String :=
  ["MDD", "ADD", "DaR", "CDaR", "EDaR", "UCI",
   "MDD_Rel", "ADD_Rel", "DaR_Rel", "CDaR_Rel", "EDaR_Rel", "UCI_Rel"]

/-- Model of `portfolio_performance` (source lines 152–287).  Computes the
portfolio return series, the annualized expected return
`mean * time_factor[freq]`, the annualized volatility
`std * time_factor[freq] ** 0.5`, and the Sharpe ratio, then emits the print
lines; for a non-`MV` risk measure it also consults the external scorer. -/
def portfolio_performance (sharpeRisk : SharpeRiskFn) (weights : Weights)
    (stock_returns : Returns) (freq : String) (risk_measure : String)
    (risk_free_rate alpha a_sim : ℚ) (beta b_sim : Option ℚ) :
    Except PyErr (List Event) := do
  let frequ := pyUpper freq
  let rets := portfolioReturns weights stock_returns
  let tf ← dictGetE "time_factor" time_factor frequ
  let mu : ℚ := listMean rets * tf
  let sigma : PNum := PNum.mul (listStd rets) (PNum.sqrt (PNum.q tf))
  let sharpe : PNum := PNum.div (PNum.q (mu - risk_free_rate)) sigma
  let factor1 := toString tf.num ++ ") "
  let factor2 := "√" ++ factor1
  let base : List Event :=
    [Event.pyPrint ("Annual (by " ++ factor1 ++ "expected return: ") (PNum.q (100 * mu)) "%",
     Event.pyPrint ("Annual (by " ++ factor2 ++ "volatility: ") (PNum.mul (PNum.q 100) sigma) "%",
     Event.pyPrint "Sharpe ratio: " sharpe ""]
  if risk_measure = "MV" then
    Except.ok base
  else do
    let risk := sharpeRisk weights stock_returns risk_measure risk_free_rate alpha a_sim beta b_sim
    let nm ← dictGetE "risk_names" risk_names (pyLower risk_measure)
    if risk_measure ∈ drawdowns then
      let sharpe2 := PNum.div (PNum.q (mu - risk_free_rate)) risk
      Except.ok (base ++
        [Event.pyPrint (nm.capitalize ++ " : ") (PNum.mul (PNum.q 100) risk) "%",
         Event.pyPrint ("Return / " ++ nm ++ " ratio: ") sharpe2 ""])
    else
      let risk2 := PNum.mul risk (PNum.sqrt (PNum.q tf))
      let sharpe2 := PNum.div (PNum.q (mu - risk_free_rate)) risk2
      Except.ok (base ++
        [Event.pyPrint ("Annual (by " ++ factor2 ++ nm ++ " : ") (PNum.mul (PNum.q 100) risk2) "%",
         Event.pyPrint ("Return / " ++ nm ++ " ratio: ") sharpe2 ""])

/-! ### Display functions

Each display function takes the opaque collaborator's result as an explicit
argument: `Option Weights` (the `weights is None` sentinel) paired with the
return table, exactly the tuple the `optimizer_model` call unpacks. -/

/-- Model of `display_equal_weight` (source lines 323–426).  The `alpha`
argument mirrors the Python parameter; the call into
`portfolio_performance` passes the default `0.05` because `# alpha=alpha`
is commented out at the call site (source lines 419–422). -/
def display_equal_weight (today : ℤ) (pyStr : ℚ → String) (sharpeRisk : SharpeRiskFn)
    (collab : Weights × Returns) (period start end_ freq risk_measure : String)
    (risk_free_rate alpha : ℚ) : Except PyErr (List Event × Weights) := do
  let p ← d_period today period start end_
  let s_title := p ++ " Equally Weighted Portfolio\n"
  let weights := collab.1
  let stock_returns := collab.2
  let rc ← dictGetE "risk_choices" risk_choices risk_measure
  let perf ← portfolio_performance sharpeRisk weights stock_returns freq rc
    risk_free_rate (5 / 100) 100 none none
  Except.ok ([Event.consoleP ["\n", s_title]] ++ display_weights pyStr weights false
    ++ perf ++ [Event.consoleP [""]], weights)

/-- Model of `display_mean_risk` (source lines 536–720).  The title branch
(lines 668–675) covers only four objectives; any other objective leaves
`s_title` unassigned and line 676 (`s_title += ...`) raises
`UnboundLocalError` before the `risk_names` lookup on the same line.  The
`risk_choices` and `objectives_choices` lookups are argument expressions of
the collaborator call (lines 688–689).  `alpha` flows only into the opaque
collaborator; the `portfolio_performance` call passes the default `0.05`
(`# alpha=alpha` commented out, lines 713–716). -/
def display_mean_risk (today : ℤ) (pyStr : ℚ → String) (sharpeRisk : SharpeRiskFn)
    (collab : Option Weights × Returns)
    (period start end_ freq risk_measure objective : String)
    (risk_free_rate alpha : ℚ) : Except PyErr (List Event × Option Weights) := do
  let p ← d_period today period start end_
  let s_title0 ←
    (if objective = "sharpe" then
      Except.ok (p ++ " Maximal return/risk ratio portfolio using\n")
    else if objective = "minrisk" then
      Except.ok (p ++ " Minimum risk portfolio using\n")
    else if objective = "maxret" then
      Except.ok (p ++ " Maximal return portfolio using\n")
    else if objective = "utility" then
      Except.ok (p ++ " Maximal risk averse utility function portfolio using\n")
    else Except.error (PyErr.unboundLocal "s_title") : Except PyErr String)
  let rn ← dictGetE "risk_names" risk_names risk_measure
  let s_title := s_title0 ++ rn ++ " as risk measure\n"
  let rc ← dictGetE "risk_choices" risk_choices risk_measure
  let _ob ← dictGetE "objectives_choices" objectives_choices objective
  match collab.1 with
  | none => Except.ok ([noSolutionNotice], none)
  | some weights => do
    let perf ← portfolio_performance sharpeRisk weights collab.2 freq rc
      risk_free_rate (5 / 100) 100 none none
    Except.ok ([Event.consoleP ["\n", s_title]] ++ display_weights pyStr weights false
      ++ perf ++ [Event.consoleP [""]], some weights)

/-- Model of `display_risk_parity` (source lines 1748–1899). -/
def display_risk_parity (today : ℤ) (pyStr : ℚ → String) (sharpeRisk : SharpeRiskFn)
    (collab : Option Weights × Returns)
    (period start end_ freq risk_measure : String)
    (risk_free_rate alpha : ℚ) : Except PyErr (List Event × Option Weights) := do
  let p ← d_period today period start end_
  let rn ← dictGetE "risk_names" risk_names risk_measure
  let s_title := p ++ " Risk parity portfolio based on risk budgeting approach\n"
    ++ "using " ++ rn ++ " as risk measure\n"
  let rc ← dictGetE "risk_choices" risk_choices risk_measure
  match collab.1 with
  | none => Except.ok ([noSolutionNotice], none)
  | some weights => do
    let perf ← portfolio_performance sharpeRisk weights collab.2 freq rc
      risk_free_rate (5 / 100) 100 none none
    Except.ok ([Event.consoleP ["\n", s_title]] ++ display_weights pyStr weights false
      ++ perf ++ [Event.consoleP [""]], some weights)

/-- Model of `display_max_div` (source lines 1291–1401).  The performance
call hardcodes `risk_measure="MV"` and `risk_free_rate=0` (lines 1392–1393). -/
def display_max_div (today : ℤ) (pyStr : ℚ → String) (sharpeRisk : SharpeRiskFn)
    (collab : Option Weights × Returns) (period start end_ freq : String) :
    Except PyErr (List Event × Option Weights) := do
  let p ← d_period today period start end_
  let s_title := p ++ " Display a maximal diversification portfolio\n"
  match collab.1 with
  | none => Except.ok ([noSolutionNotice], none)
  | some weights => do
    let perf ← portfolio_performance sharpeRisk weights collab.2 freq "MV"
      0 (5 / 100) 100 none none
    Except.ok ([Event.consoleP ["\n", s_title]] ++ display_weights pyStr weights false
      ++ perf ++ [Event.consoleP [""]], some weights)

/-- Model of `display_hcp` (source lines 2041–2312).  The title branch covers
only the models HRP, HERC and NCO (lines 2251–2259); line 2260 reads
`s_title` and then looks up `risk_names`.  The `objectives_choices` and
`risk_choices` lookups are argument expressions of the collaborator call
(lines 2275–2276).  This function does pass `alpha`, `a_sim`, `beta`, `b_sim`
through to `portfolio_performance` (lines 2305–2308). -/
def display_hcp (today : ℤ) (pyStr : ℚ → String) (sharpeRisk : SharpeRiskFn)
    (collab : Option Weights × Returns)
    (period start end_ freq model codependence linkage objective risk_measure : String)
    (risk_free_rate alpha a_sim : ℚ) (beta b_sim : Option ℚ) :
    Except PyErr (List Event × Option Weights) := do
  let p ← d_period today period start end_
  let s_title0 ←
    (if model = "HRP" then
      Except.ok (p ++ " Hierarchical risk parity portfolio"
        ++ " using " ++ codependence ++ " codependence,\n" ++ linkage)
    else if model = "HERC" then
      Except.ok (p ++ " Hierarchical equal risk contribution portfolio"
        ++ " using " ++ codependence ++ "\ncodependence," ++ linkage)
    else if model = "NCO" then
      Except.ok (p ++ " Nested clustered optimization"
        ++ " using " ++ codependence ++ " codependence,\n" ++ linkage)
    else Except.error (PyErr.unboundLocal "s_title") : Except PyErr String)
  let rn ← dictGetE "risk_names" risk_names risk_measure
  let s_title := s_title0 ++ " linkage and " ++ rn ++ " as risk measure\n"
  let _ob ← dictGetE "objectives_choices" objectives_choices objective
  let rc ← dictGetE "risk_choices" risk_choices risk_measure
  match collab.1 with
  | none => Except.ok ([noSolutionNotice], none)
  | some weights => do
    let perf ← portfolio_performance sharpeRisk weights collab.2 freq rc
      risk_free_rate alpha a_sim beta b_sim
    Except.ok ([Event.consoleP ["\n", s_title]] ++ display_weights pyStr weights false
      ++ perf ++ [Event.consoleP [""]], some weights)

/-! ### Pie chart -/

/-- Model of `my_autopct` (source lines 2992–2998): the label matplotlib puts
on a slice given its percentage `x`; empty when `x` is not above 4.  `fmtNum`
is the opaque numeric rendering of `f-string` formatting. -/
def my_autopct (fmtNum : ℚ → String) (x : ℚ) : String :=
  if x > 4 then fmtNum x ++ " %" else ""

/-- The plotted subset of `pie_chart_weights` (source lines 3019–3026): only
strictly positive weights are kept. -/
def pie_plotted (weights : List (String × ℚ)) : List (String × ℚ) :=
  weights.filter (fun p => 0 < p.2)

/-- Slice labels of `pie_chart_weights` (source lines 3035–3059).  In the
sums-to-~1 branch matplotlib calls `my_autopct` with the slice percentage
(`normalize=True`); otherwise the label is the raw size when its share
exceeds 0.05 and empty otherwise. -/
def pie_labels (fmtNum : ℚ → String) (weights : List (String × ℚ)) : List String :=
  let sizes := (pie_plotted weights).map Prod.snd
  let total := sizes.sum
  if math_isclose sizes.sum 1 (1 / 10) then
    sizes.map (fun s => my_autopct fmtNum (100 * s / total))
  else
    sizes.map (fun s => if s / total > 1 / 20 then fmtNum s else "")

/-! ### Spec-modelled collaborator and spec-side formulas -/

/-- Modelled from the spec: `optimizer_model.get_equal_weights` is code of
this repository that is not under the sources in scope (only its caller
`display_equal_weight` is).  Per spec section 6 ("Equal/property-weight
builder: given tickers and an optional per-asset property, returns a weight
mapping (ticker → fraction of capital) summing to the allocated value") and
the caller's docstring ("Equally weighted portfolio, where weight = 1/# of
stocks"), each ticker receives `value / n`; the return table comes from the
return-series provider and is passed through. -/
def get_equal_weights (stocks : List String) (value : ℚ) (stockReturns : Returns) :
    Weights × Returns :=
  (stocks.map (fun s => (s, value / stocks.length)), stockReturns)

/-- Spec-side formula: annualized expected return
`mean(returns) * time_factor[freq]`. -/
def specAnnualReturn (rets : List ℚ) (tf : ℚ) : ℚ := listMean rets * tf

/-- Spec-side formula: annualized volatility
`std(returns) * sqrt(time_factor[freq])`. -/
def specAnnualVol (rets : List ℚ) (tf : ℚ) : PNum :=
  PNum.mul (PNum.sqrt (PNum.q (sampleVar rets))) (PNum.sqrt (PNum.q tf))

/-- Spec-side formula: Sharpe ratio
`(annualized return - risk_free_rate) / annualized volatility`. -/
def specSharpe (rets : List ℚ) (tf : ℚ) (rf : ℚ) : PNum :=
  PNum.div (PNum.q (specAnnualReturn rets tf - rf)) (specAnnualVol rets tf)

/-- Concrete daily return table over a fixed historical window for four
tickers (three observations, identical across assets so the figures are easy
to audit by hand). -/
def demoReturns : Returns :=
  [[1/100, 1/100, 1/100, 1/100],
   [2/100, 2/100, 2/100, 2/100],
   [3/100, 3/100, 3/100, 3/100]]

/-- The weight mapping the equal-weight builder produces for the four demo
tickers with `value = 1`. -/
def demoWeights : Weights :=
  (get_equal_weights ["AAPL", "AMZN", "MSFT", "TSLA"] 1 demoReturns).1

/-- Portfolio return series of the demo scenario. -/
def demoRets : List ℚ := portfolioReturns demoWeights demoReturns

/-! ## Theorems -/

/-- Unfolding lemma for the `math.isclose` embedding. -/
theorem math_isclose_eq_true (a b t : ℚ) :
    math_isclose a b t = true ↔ |a - b| ≤ t * max |a| |b| := by
  simp [math_isclose]

/-- C3: the translation tables `risk_names` and `risk_choices` are defined on
exactly the same set of keys (so every selectable risk-measure key has an
entry in both), the keys are not duplicated, and within each table distinct
keys map to distinct values. -/
theorem risk_tables_total_unique :
    dictKeys risk_names = dictKeys risk_choices ∧
    (dictKeys risk_names).Nodup ∧
    (risk_names.map Prod.snd).Nodup ∧
    (risk_choices.map Prod.snd).Nodup := by
  decide

/-- C2: for a non-empty weight mapping displayed with `market_neutral=False`,
`display_weights` renders every value as `value * 100` with a " %" suffix when
the sum of values is close to 1 within 10% relative tolerance, and as a
currency amount with a " $" suffix otherwise. -/
theorem display_weights_percent_vs_currency (pyStr : ℚ → String)
    (weights : List (String × ℚ)) (hne : weights ≠ []) :
    (math_isclose (weights.map Prod.snd).sum 1 (1 / 10) = true →
      display_weights pyStr weights false =
        [Event.table (weights.map (fun p => (p.1, truncCell (pyStr (p.2 * 100)) ++ " %")))
          ["Value"] "Weights"]) ∧
    (math_isclose (weights.map Prod.snd).sum 1 (1 / 10) = false →
      display_weights pyStr weights false =
        [Event.table (weights.map (fun p => (p.1, truncCell (pyStr p.2) ++ " $")))
          ["Value"] "Weights"]) := by
  constructor <;> intro h <;>
    · simp only [display_weights]
      rw [if_neg hne, h]
      simp

/-- Witness for C2: a concrete two-asset mapping summing to 1 is rendered in
the percentage format. -/
theorem display_weights_percent_vs_currency_witness :
    display_weights (fun _ => "0.25") [("A", (1 : ℚ) / 4), ("B", (3 : ℚ) / 4)] false =
      [Event.table [("A", " 0.25 %"), ("B", " 0.25 %")] ["Value"] "Weights"] := by
  have h := (display_weights_percent_vs_currency (fun _ => "0.25")
    [("A", (1 : ℚ) / 4), ("B", (3 : ℚ) / 4)] (by simp)).1 (by
      rw [math_isclose_eq_true]
      norm_num)
  rw [h]
  simp only [List.map_cons, List.map_nil, truncCell, pyFind]
  decide

/-- C4: `pie_chart_weights` plots exactly the strictly positive weights, and
every plotted slice whose share of the total is at or below 4% gets the empty
label, in both normalisation branches. -/
theorem pie_chart_filter_label (fmtNum : ℚ → String)
    (weights : List (String × ℚ)) (hne : weights ≠ []) :
    (∀ p : String × ℚ, p ∈ pie_plotted weights ↔ p ∈ weights ∧ 0 < p.2) ∧
    (∀ (i : ℕ) (s : ℚ), ((pie_plotted weights).map Prod.snd)[i]? = some s →
      100 * s ≤ 4 * ((pie_plotted weights).map Prod.snd).sum →
      (pie_labels fmtNum weights)[i]? = some "") := by
  clear hne
  constructor
  · intro p
    simp [pie_plotted, List.mem_filter]
  · intro i s hs hbound
    have hmem : s ∈ (pie_plotted weights).map Prod.snd := by
      exact List.getElem?_mem hs
    have hpos : 0 < s := by
      rcases List.mem_map.mp hmem with ⟨p, hp, rfl⟩
      exact of_decide_eq_true (List.mem_filter.mp hp).2
    have htotpos : 0 < ((pie_plotted weights).map Prod.snd).sum := by
      refine List.sum_pos _ ?_ ?_
      · intro x hx
        rcases List.mem_map.mp hx with ⟨p, hp, rfl⟩
        exact of_decide_eq_true (List.mem_filter.mp hp).2
      · intro hnil
        rw [hnil] at hmem
        exact absurd hmem (List.not_mem_nil s)
    set sizes := (pie_plotted weights).map Prod.snd with hsizes
    set total := sizes.sum with htotal
    have hlab : (pie_labels fmtNum weights)[i]? =
        (if math_isclose sizes.sum 1 (1 / 10) then
          sizes.map (fun s => my_autopct fmtNum (100 * s / total))
        else
          sizes.map (fun s => if s / total > 1 / 20 then fmtNum s else ""))[i]? := by
      rfl
    rw [hlab]
    by_cases hclose : math_isclose sizes.sum 1 (1 / 10)
    · rw [if_pos hclose, List.getElem?_map, hs]
      have hle : 100 * s / total ≤ 4 := by
        rw [div_le_iff₀ htotpos]
        linarith
      simp only [Option.map_some']
      simp [my_autopct, not_lt.mpr hle]
    · rw [if_neg hclose, List.getElem?_map, hs]
      have hle : s / total ≤ 1 / 20 := by
        rw [div_le_div_iff₀ htotpos (by norm_num : (0 : ℚ) < 20)]
        linarith
      simp only [Option.map_some']
      rw [if_neg (not_lt.mpr hle)]

/-- Witness for C4: with weights 0.9, 0.03 and -0.5, the negative weight is
excluded from the plot and the 0.03 slice (share about 3.2%) gets the empty
label. -/
theorem pie_chart_filter_label_witness :
    (("C", -(1 : ℚ) / 2) ∈ pie_plotted [("A", (9 : ℚ) / 10), ("B", 3 / 100), ("C", -(1 : ℚ) / 2)] ↔
      (("C", -(1 : ℚ) / 2) ∈ [("A", (9 : ℚ) / 10), ("B", 3 / 100), ("C", -(1 : ℚ) / 2)] ∧
        (0 : ℚ) < -(1 : ℚ) / 2)) ∧
    (pie_labels (fun _ => "X") [("A", (9 : ℚ) / 10), ("B", 3 / 100), ("C", -(1 : ℚ) / 2)])[1]? =
      some "" := by
  have h := pie_chart_filter_label (fun _ => "X")
    [("A", (9 : ℚ) / 10), ("B", 3 / 100), ("C", -(1 : ℚ) / 2)] (by simp)
  exact ⟨h.1 ("C", -(1 : ℚ) / 2), h.2 1 (3 / 100)
    (by norm_num [pie_plotted, List.filter])
    (by norm_num [pie_plotted, List.filter])⟩

/-- C9 counterexample: for the empty period string (with empty start), the
claim's description is wrong about the failure mode: `period[-1]` raises
`IndexError` at line 132 before the local `p` is ever referenced, so the
failure is not an unbound-local reference to `p`. -/
theorem d_period_empty_period_index_error :
    d_period 739536 "" "" "" = Except.error PyErr.indexError ∧
    (Except.error PyErr.indexError : Except PyErr String) ≠
      Except.error (PyErr.unboundLocal "p") := by
  decide

/-- C9 (amended): with empty start, a period that is neither "ytd" nor "max"
and does not end in one of 'd', 'w', 'o', 'y' makes `d_period` fail instead
of returning a range string: with `UnboundLocalError` on `p` when the period
is non-empty, and with `IndexError` at `period[-1]` when it is empty. -/
theorem d_period_unrecognized_period (today : ℤ) (period end_ : String)
    (h1 : period ≠ "ytd") (h2 : period ≠ "max") :
    (period = "" → d_period today period "" end_ = Except.error PyErr.indexError) ∧
    (∀ c : Char, period.toList.getLast? = some c →
      c ≠ 'd' → c ≠ 'w' → c ≠ 'o' → c ≠ 'y' →
      d_period today period "" end_ = Except.error (PyErr.unboundLocal "p")) := by
  constructor
  · rintro rfl
    rfl
  · intro c hc hd hw ho hy
    unfold d_period
    rw [if_pos rfl, if_neg h1, if_neg h2, hc]
    simp only [if_neg hd, if_neg hw, if_neg ho, if_neg hy]

/-- Witness for C9: the period "5m" (empty start) ends in 'm' and triggers
the unbound-local failure on `p`. -/
theorem d_period_unrecognized_period_witness :
    d_period 739536 "5m" "" "" = Except.error (PyErr.unboundLocal "p") :=
  (d_period_unrecognized_period 739536 "5m" "" (by decide) (by decide)).2
    'm' (by decide) (by decide) (by decide) (by decide) (by decide)

/-- C10: with a non-empty start and an empty end, `d_period` returns a range
string whose embedded end date is today adjusted to the most recent Friday
when today is a weekend day, so the embedded end date's weekday is never
Saturday (5) or Sunday (6). -/
theorem d_period_end_no_weekend (today : ℤ) (period start end_ : String)
    (hs : start ≠ "") (he : end_ = "") :
    d_period today period start end_ =
      Except.ok ("[From " ++ start ++ " to " ++ fmtDate (lastWeekdayOrd today) ++ "]") ∧
    pyWeekday (lastWeekdayOrd today) < 5 := by
  constructor
  · simp only [d_period]
    rw [if_neg hs, if_pos he]
  · unfold lastWeekdayOrd pyWeekday
    split <;> omega

/-- Witness for C10: ordinal 739536 is Sunday 2025-10-12; the range string
ends at Friday 2025-10-10. -/
theorem d_period_end_no_weekend_witness :
    d_period 739536 "3y" "2020-01-01" "" =
      Except.ok "[From 2020-01-01 to 2025-10-10]" ∧
    pyWeekday (lastWeekdayOrd 739536) < 5 := by
  have h := d_period_end_no_weekend 739536 "3y" "2020-01-01" "" (by decide) rfl
  refine ⟨?_, h.2⟩
  rw [h.1]
  decide

/-- C1: whenever the optimizer collaborator returns the `None` sentinel, each
of `display_mean_risk`, `display_risk_parity`, `display_max_div` and
`display_hcp` emits exactly the single "no solution" notice — no weight
table, no performance output — and returns `None` without raising. -/
theorem display_no_solution_sentinel
    (today : ℤ) (pyStr : ℚ → String) (sharpeRisk : SharpeRiskFn) (rets : Returns)
    (period start end_ freq codependence linkage model objective risk_measure : String)
    (rf alpha a_sim : ℚ) (beta b_sim : Option ℚ)
    (p rn rc : String)
    (hp : d_period today period start end_ = Except.ok p)
    (hrn : dictGet risk_names risk_measure = some rn)
    (hrc : dictGet risk_choices risk_measure = some rc)
    (hobj : objective = "sharpe" ∨ objective = "minrisk" ∨ objective = "maxret" ∨
      objective = "utility")
    (hmod : model = "HRP" ∨ model = "HERC" ∨ model = "NCO") :
    display_mean_risk today pyStr sharpeRisk (none, rets) period start end_ freq
      risk_measure objective rf alpha = Except.ok ([noSolutionNotice], none) ∧
    display_risk_parity today pyStr sharpeRisk (none, rets) period start end_ freq
      risk_measure rf alpha = Except.ok ([noSolutionNotice], none) ∧
    display_max_div today pyStr sharpeRisk (none, rets) period start end_ freq =
      Except.ok ([noSolutionNotice], none) ∧
    display_hcp today pyStr sharpeRisk (none, rets) period start end_ freq
      model codependence linkage objective risk_measure rf alpha a_sim beta b_sim =
      Except.ok ([noSolutionNotice], none) := by
  refine ⟨?_, ?_, ?_, ?_⟩
  · rcases hobj with rfl | rfl | rfl | rfl <;>
      simp [display_mean_risk, bind, Except.bind, dictGetE, hp, hrn, hrc,
        show dictGet objectives_choices "sharpe" = some "Sharpe" from rfl,
        show dictGet objectives_choices "minrisk" = some "MinRisk" from rfl,
        show dictGet objectives_choices "maxret" = some "MaxRet" from rfl,
        show dictGet objectives_choices "utility" = some "Utility" from rfl]
  · simp [display_risk_parity, bind, Except.bind, dictGetE, hp, hrn, hrc]
  · simp [display_max_div, bind, Except.bind, hp]
  · rcases hmod with rfl | rfl | rfl <;> rcases hobj with rfl | rfl | rfl | rfl <;>
      simp [display_hcp, bind, Except.bind, dictGetE, hp, hrn, hrc,
        show dictGet objectives_choices "sharpe" = some "Sharpe" from rfl,
        show dictGet objectives_choices "minrisk" = some "MinRisk" from rfl,
        show dictGet objectives_choices "maxret" = some "MaxRet" from rfl,
        show dictGet objectives_choices "utility" = some "Utility" from rfl]

/-- Witness for C1: the four display functions on a concrete configuration
with a `None` collaborator result all yield exactly the notice trace. -/
theorem display_no_solution_sentinel_witness :
    display_mean_risk 739536 (fun _ => "") (fun _ _ _ _ _ _ _ _ => PNum.q 0)
      (none, ([] : Returns)) "3y" "" "" "D" "mv" "sharpe" 0 (5 / 100) =
      Except.ok ([noSolutionNotice], none) ∧
    display_risk_parity 739536 (fun _ => "") (fun _ _ _ _ _ _ _ _ => PNum.q 0)
      (none, ([] : Returns)) "3y" "" "" "D" "mv" 0 (5 / 100) =
      Except.ok ([noSolutionNotice], none) ∧
    display_max_div 739536 (fun _ => "") (fun _ _ _ _ _ _ _ _ => PNum.q 0)
      (none, ([] : Returns)) "3y" "" "" "D" =
      Except.ok ([noSolutionNotice], none) ∧
    display_hcp 739536 (fun _ => "") (fun _ _ _ _ _ _ _ _ => PNum.q 0)
      (none, ([] : Returns)) "3y" "" "" "D" "HRP" "pearson" "ward" "sharpe" "mv"
      0 (5 / 100) 100 none none =
      Except.ok ([noSolutionNotice], none) :=
  display_no_solution_sentinel 739536 (fun _ => "") (fun _ _ _ _ _ _ _ _ => PNum.q 0)
    [] "3y" "" "" "D" "pearson" "ward" "HRP" "sharpe" "mv" 0 (5 / 100) 100 none none
    "[3 Years]" "volatility" "MV" (by decide) rfl rfl (Or.inl rfl) (Or.inl rfl)

/-- C8: calling `display_mean_risk` with the objective "erc" — which the
`objectives_choices` table does map (to "ERC") — fails with an unbound-local
error on `s_title`, for every collaborator result, i.e. before the optimizer
collaborator is consulted. -/
theorem mean_risk_erc_unbound_local
    (today : ℤ) (pyStr : ℚ → String) (sharpeRisk : SharpeRiskFn)
    (collab : Option Weights × Returns)
    (period start end_ freq risk_measure : String) (rf alpha : ℚ)
    (p : String) (hp : d_period today period start end_ = Except.ok p) :
    display_mean_risk today pyStr sharpeRisk collab period start end_ freq
      risk_measure "erc" rf alpha = Except.error (PyErr.unboundLocal "s_title") ∧
    dictGet objectives_choices "erc" = some "ERC" := by
  refine ⟨?_, rfl⟩
  simp [display_mean_risk, bind, Except.bind, hp]

/-- Witness for C8: a concrete "erc" call fails with the unbound-local error
even though the collaborator would have returned a solution. -/
theorem mean_risk_erc_unbound_local_witness :
    display_mean_risk 739536 (fun _ => "") (fun _ _ _ _ _ _ _ _ => PNum.q 0)
      (some [("AAPL", 1)], ([] : Returns)) "3y" "" "" "D" "mv" "erc" 0 (5 / 100) =
      Except.error (PyErr.unboundLocal "s_title") ∧
    dictGet objectives_choices "erc" = some "ERC" :=
  mean_risk_erc_unbound_local 739536 (fun _ => "") (fun _ _ _ _ _ _ _ _ => PNum.q 0)
    (some [("AAPL", 1)], []) "3y" "" "" "D" "mv" 0 (5 / 100) "[3 Years]" (by decide)

/-- C5 counterexample: for the objective "foo", which is absent from
`objectives_choices`, `display_mean_risk` does not fail with a lookup
`KeyError`: it fails with an `UnboundLocalError` in title building before the
`objectives_choices` lookup is reached. -/
theorem unrecognized_objective_not_keyerror :
    display_mean_risk 739536 (fun _ => "") (fun _ _ _ _ _ _ _ _ => PNum.q 0)
      (none, ([] : Returns)) "3y" "" "" "D" "mv" "foo" 0 (5 / 100) =
      Except.error (PyErr.unboundLocal "s_title") ∧
    dictGet objectives_choices "foo" = none ∧
    ¬ ∃ tbl k, display_mean_risk 739536 (fun _ => "") (fun _ _ _ _ _ _ _ _ => PNum.q 0)
      (none, ([] : Returns)) "3y" "" "" "D" "mv" "foo" 0 (5 / 100) =
      Except.error (PyErr.keyError tbl k) := by
  have h1 : display_mean_risk 739536 (fun _ => "") (fun _ _ _ _ _ _ _ _ => PNum.q 0)
      (none, ([] : Returns)) "3y" "" "" "D" "mv" "foo" 0 (5 / 100) =
      Except.error (PyErr.unboundLocal "s_title") := by
    simp [display_mean_risk, bind, Except.bind,
      show d_period 739536 "3y" "" "" = Except.ok "[3 Years]" from by decide]
  refine ⟨h1, rfl, ?_⟩
  rintro ⟨tbl, k, hk⟩
  rw [h1] at hk
  simp at hk

/-- C5 (amended): unrecognized risk-measure names do propagate as `KeyError`
lookup failures (from `risk_names` in `display_mean_risk`, from
`risk_choices` in `display_equal_weight`), and an unrecognized objective in
`display_hcp` propagates as a `KeyError` from `objectives_choices`; but in
`display_mean_risk` an objective outside the four title branches fails with
an `UnboundLocalError` in title building before any `objectives_choices`
lookup. -/
theorem unvalidated_lookup_failures
    (today : ℤ) (pyStr : ℚ → String) (sharpeRisk : SharpeRiskFn)
    (collab : Option Weights × Returns) (collabEq : Weights × Returns)
    (period start end_ freq : String) (rf alpha a_sim : ℚ) (beta b_sim : Option ℚ)
    (p : String) (hp : d_period today period start end_ = Except.ok p) :
    (∀ rm, dictGet risk_names rm = none →
      display_mean_risk today pyStr sharpeRisk collab period start end_ freq
        rm "sharpe" rf alpha = Except.error (PyErr.keyError "risk_names" rm)) ∧
    (∀ rm, dictGet risk_choices rm = none →
      display_equal_weight today pyStr sharpeRisk collabEq period start end_ freq
        rm rf alpha = Except.error (PyErr.keyError "risk_choices" rm)) ∧
    (∀ ob, ob ≠ "sharpe" → ob ≠ "minrisk" → ob ≠ "maxret" → ob ≠ "utility" →
      ∀ rm, display_mean_risk today pyStr sharpeRisk collab period start end_ freq
        rm ob rf alpha = Except.error (PyErr.unboundLocal "s_title")) ∧
    (∀ ob rm rn, dictGet objectives_choices ob = none →
      dictGet risk_names rm = some rn →
      ∀ codependence linkage,
        display_hcp today pyStr sharpeRisk collab period start end_ freq
          "HRP" codependence linkage ob rm rf alpha a_sim beta b_sim =
          Except.error (PyErr.keyError "objectives_choices" ob)) := by
  refine ⟨?_, ?_, ?_, ?_⟩
  · intro rm hrm
    simp [display_mean_risk, bind, Except.bind, dictGetE, hp, hrm]
  · intro rm hrm
    simp [display_equal_weight, bind, Except.bind, dictGetE, hp, hrm]
  · intro ob h1 h2 h3 h4 rm
    simp [display_mean_risk, bind, Except.bind, hp, h1, h2, h3, h4]
  · intro ob rm rn hob hrn codependence linkage
    simp [display_hcp, bind, Except.bind, dictGetE, hp, hob, hrn]

/-- Witness for C5: concrete unrecognized names for each of the four cases. -/
theorem unvalidated_lookup_failures_witness :
    display_mean_risk 739536 (fun _ => "") (fun _ _ _ _ _ _ _ _ => PNum.q 0)
      (none, ([] : Returns)) "3y" "" "" "D" "zzz" "sharpe" 0 (5 / 100) =
      Except.error (PyErr.keyError "risk_names" "zzz") ∧
    display_equal_weight 739536 (fun _ => "") (fun _ _ _ _ _ _ _ _ => PNum.q 0)
      (([], []) : Weights × Returns) "3y" "" "" "D" "zzz" 0 (5 / 100) =
      Except.error (PyErr.keyError "risk_choices" "zzz") ∧
    display_mean_risk 739536 (fun _ => "") (fun _ _ _ _ _ _ _ _ => PNum.q 0)
      (none, ([] : Returns)) "3y" "" "" "D" "mv" "bar" 0 (5 / 100) =
      Except.error (PyErr.unboundLocal "s_title") ∧
    display_hcp 739536 (fun _ => "") (fun _ _ _ _ _ _ _ _ => PNum.q 0)
      (none, ([] : Returns)) "3y" "" "" "D" "HRP" "pearson" "ward" "bar" "mv"
      0 (5 / 100) 100 none none =
      Except.error (PyErr.keyError "objectives_choices" "bar") := by
  have h := unvalidated_lookup_failures 739536 (fun _ => "")
    (fun _ _ _ _ _ _ _ _ => PNum.q 0) (none, ([] : Returns))
    (([], []) : Weights × Returns) "3y" "" "" "D" 0 (5 / 100) 100 none none
    "[3 Years]" (by decide)
  exact ⟨h.1 "zzz" rfl, h.2.1 "zzz" rfl,
    h.2.2.1 "bar" (by decide) (by decide) (by decide) (by decide) "mv",
    h.2.2.2 "bar" "mv" "volatility" rfl rfl "pearson" "ward"⟩

/-- C6: the documented significance parameter `alpha` is silently ignored by
`display_equal_weight` and by the performance path of `display_mean_risk`:
two runs that differ only in `alpha`, given the same collaborator result,
produce identical output. -/
theorem alpha_param_ignored
    (today : ℤ) (pyStr : ℚ → String) (sharpeRisk : SharpeRiskFn)
    (collabEq : Weights × Returns) (collab : Option Weights × Returns)
    (period start end_ freq risk_measure objective : String) (rf a1 a2 : ℚ) :
    display_equal_weight today pyStr sharpeRisk collabEq period start end_ freq
      risk_measure rf a1 =
    display_equal_weight today pyStr sharpeRisk collabEq period start end_ freq
      risk_measure rf a2 ∧
    display_mean_risk today pyStr sharpeRisk collab period start end_ freq
      risk_measure objective rf a1 =
    display_mean_risk today pyStr sharpeRisk collab period start end_ freq
      risk_measure objective rf a2 :=
  ⟨rfl, rfl⟩

/-- C7: the end-to-end equal-weight scenario over four tickers: the weight
mapping assigns 1/4 to each ticker, and the performance report prints the
annualized expected return `mean * time_factor["D"]`, the annualized
volatility `std * sqrt(time_factor["D"])` and the Sharpe ratio
`(return - risk_free_rate) / volatility`, all computed from the supplied
return series (concretely: 5.04 annual return, `sqrt(1/10000) * sqrt(252)`
volatility, and their quotient as Sharpe ratio). -/
theorem equal_weight_end_to_end (pyStr : ℚ → String) (sharpeRisk : SharpeRiskFn) :
    (display_equal_weight 739540 pyStr sharpeRisk
      (get_equal_weights ["AAPL", "AMZN", "MSFT", "TSLA"] 1 demoReturns)
      "3y" "" "" "D" "mv" 0 (5 / 100) =
    Except.ok
      (Event.consoleP ["\n", "[3 Years] Equally Weighted Portfolio\n"]
        :: (display_weights pyStr demoWeights false
          ++ [Event.pyPrint "Annual (by 252) expected return: "
                (PNum.q (100 * specAnnualReturn demoRets 252)) "%",
              Event.pyPrint "Annual (by √252) volatility: "
                (PNum.mul (PNum.q 100) (specAnnualVol demoRets 252)) "%",
              Event.pyPrint "Sharpe ratio: " (specSharpe demoRets 252 0) "",
              Event.consoleP [""]]),
       demoWeights)) ∧
    demoWeights = [("AAPL", 1/4), ("AMZN", 1/4), ("MSFT", 1/4), ("TSLA", 1/4)] ∧
    specAnnualReturn demoRets 252 = 504 / 100 ∧
    specAnnualVol demoRets 252 =
      PNum.mul (PNum.sqrt (PNum.q (1 / 10000))) (PNum.sqrt (PNum.q 252)) ∧
    specSharpe demoRets 252 0 =
      PNum.div (PNum.q (504 / 100)) (specAnnualVol demoRets 252) := by
  refine ⟨?_, ?_, ?_, ?_, ?_⟩
  · norm_num [display_equal_weight, bind, Except.bind,
      show d_period 739540 "3y" "" "" = Except.ok "[3 Years]" from by decide,
      show dictGetE "risk_choices" risk_choices "mv" = Except.ok "MV" from rfl,
      show dictGetE "time_factor" time_factor (pyUpper "D") = Except.ok 252 from rfl,
      portfolio_performance, demoWeights, demoRets, specAnnualReturn, specAnnualVol,
      specSharpe, listStd, listMean, sampleVar, portfolioReturns, get_equal_weights,
      demoReturns]
    decide
  · norm_num [demoWeights, get_equal_weights]
  · norm_num [specAnnualReturn, listMean, demoRets, demoWeights, demoReturns,
      get_equal_weights, portfolioReturns]
  · norm_num [specAnnualVol, sampleVar, listMean, demoRets, demoWeights, demoReturns,
      get_equal_weights, portfolioReturns]
  · norm_num [specSharpe, specAnnualReturn, specAnnualVol, sampleVar, listMean,
      demoRets, demoWeights, demoReturns, get_equal_weights, portfolioReturns]

end OptimizerView
